import Mathlib

/-!
A shallow embedding of the PluralLib data-model layer (files `limited.rs`,
`references.rs`, `models/mod.rs`, `models/member.rs`) together with proofs of
the specification's claims about it.

Rust strings are modelled as Lean `String` (a list of Unicode scalar values);
Rust's `str::len` (the number of UTF-8 bytes) is modelled by `utf8Len` below.
Fallible Rust functions returning `Result` are modelled with `Except`.
-/

set_option autoImplicit false

/-- The number of bytes of the UTF-8 encoding of a scalar value, as Rust's
`char::len_utf8` computes it. -/
def charUtf8Size (c : Char) : Nat :=
  if c.toNat < 0x80 then 1
  else if c.toNat < 0x800 then 2
  else if c.toNat < 0x10000 then 3
  else 4

/-- Rust `str::len`: the length of a string in UTF-8 bytes. -/
def utf8Len (s : String) : Nat :=
  (s.data.map charUtf8Size).sum

/-- Rust `char::is_ascii_lowercase`: the scalar value lies in `a`-`z`
(97 to 122). -/
def isAsciiLowercase (c : Char) : Bool :=
  97 ≤ c.toNat && c.toNat ≤ 122

/-! ## `limited.rs` -/

/-- `ExceededLimitError<'a>(&'a str, usize)`: the length-violation error of
`LimitedStr`, carrying the offending input and the limit. -/
structure ExceededLimitError where
  input : String
  limit : Nat
  deriving DecidableEq

/-- `LimitedStr<const L: usize>(Box<str>)`: a wrapper around an owned string
whose checked constructor enforces a byte-length limit of `L`. -/
structure LimitedStr (L : Nat) where
  val : String
  deriving DecidableEq

/-- `LimitedStr::new_unchecked`: wraps a string with no length check. -/
def LimitedStr.new_unchecked (L : Nat) (str : String) : LimitedStr L :=
  ⟨str⟩

/-- `impl Deref for LimitedStr`: exposes the contained string slice. -/
def LimitedStr.deref {L : Nat} (s : LimitedStr L) : String :=
  s.val

/-- `impl ToString for LimitedStr`. -/
def LimitedStr.toString {L : Nat} (s : LimitedStr L) : String :=
  s.val

/-- `impl TryFrom<&str> for LimitedStr<L>`: errors with
`ExceededLimitError(value, L)` when `value.len() > L`, otherwise stores a copy
of `value`. -/
def LimitedStr.tryFrom (L : Nat) (value : String) :
    Except ExceededLimitError (LimitedStr L) :=
  if utf8Len value > L then .error ⟨value, L⟩
  else .ok ⟨value⟩

/-- The `url` crate's parse failure (an external collaborator); modelled
opaquely by a diagnostic message. -/
structure UrlParseError where
  msg : String
  deriving DecidableEq

/-- The `url` crate's parsed `Url` (an external collaborator); modelled by its
serialized text form, the only observation this library makes of it. -/
structure Url where
  text : String
  deriving DecidableEq

/-- `LimitedUrlError<'a>`: either the length violation (input and limit) or
the underlying URL parse failure — two distinct variants of one error type. -/
inductive LimitedUrlError where
  | ExceededLimitError (input : String) (limit : Nat)
  | ParseError (e : UrlParseError)
  deriving DecidableEq

/-- `LimitedUrl<const L: usize>(Url)`: a parsed URL whose checked constructor
enforces a byte-length limit of `L` on the raw text. -/
structure LimitedUrl (L : Nat) where
  url : Url
  deriving DecidableEq

/-- `impl TryFrom<&str> for LimitedUrl<L>`: checks the length bound on the raw
text first, then runs `Url::parse`. `Url::parse` is an external collaborator,
so the embedding takes it as a parameter `parse`. -/
def LimitedUrl.tryFrom (parse : String → Except UrlParseError Url) (L : Nat)
    (value : String) : Except LimitedUrlError (LimitedUrl L) :=
  if utf8Len value > L then .error (.ExceededLimitError value L)
  else
    match parse value with
    | .ok url => .ok ⟨url⟩
    | .error e => .error (.ParseError e)

/-! ## `references.rs` -/

/-- `ShortError`: the two failure modes of `ShortId` parsing. -/
inductive ShortError where
  | InvalidCharacters
  | IncorrectLength
  deriving DecidableEq

/-- `ShortId(Box<str>)`: a PluralKit short id, 5 `a`-`z` characters. -/
structure ShortId where
  val : String
  deriving DecidableEq

/-- `impl ToString for ShortId`. -/
def ShortId.toString (s : ShortId) : String :=
  s.val

/-- `impl TryFrom<&str> for ShortId`: rejects with `IncorrectLength` when
`value.len() != 5`, then scans the characters and rejects with
`InvalidCharacters` at the first one outside `a`-`z`. -/
def ShortId.tryFrom (value : String) : Except ShortError ShortId :=
  if utf8Len value ≠ 5 then .error .IncorrectLength
  else if value.data.all isAsciiLowercase then .ok ⟨value⟩
  else .error .InvalidCharacters

/-! ## `models/mod.rs` -/

/-- `enum Privacy { Public, Private }`. -/
inductive Privacy where
  | Public
  | Private
  deriving DecidableEq

/-- `enum Patchable<T> { Patched(T), Unmodified }`: the tri-state patch
wrapper (the Rust `derive(Default)` default is `Unmodified`). -/
inductive Patchable (T : Type) where
  | Patched (t : T)
  | Unmodified
  deriving DecidableEq

instance (T : Type) : Inhabited (Patchable T) :=
  ⟨.Unmodified⟩

/-- `Patchable::is_unmodified`: the predicate consulted by
`#[serde(skip_serializing_if = ...)]` on every patch field. -/
def Patchable.is_unmodified {T : Type} : Patchable T → Bool
  | .Patched _ => false
  | .Unmodified => true

/-- `rgb::RGB8` (external collaborator): three 8-bit channels. The embedding
uses `Nat` components; every constructor in the modelled code produces values
below 256. -/
structure RGB8 where
  r : Nat
  g : Nat
  b : Nat
  deriving DecidableEq

/-- `time::OffsetDateTime` (external collaborator): modelled by its ISO-8601
rendering, the only observation this library makes of it. -/
structure OffsetDateTime where
  iso : String
  deriving DecidableEq

/-- One hexadecimal digit character (lowercase), for `n < 16`. -/
def hexDigit (n : Nat) : Char :=
  if n < 10 then Char.ofNat (48 + n) else Char.ofNat (87 + n)

/-- `hex::encode` of one byte: two lowercase hex digits. -/
def byteToHex (v : Nat) : List Char :=
  [hexDigit (v / 16 % 16), hexDigit (v % 16)]

/-- `hex::encode` of an `RGB8`: the 6-character lowercase hex string. -/
def hexEncode (c : RGB8) : String :=
  ⟨byteToHex c.r ++ byteToHex c.g ++ byteToHex c.b⟩

/-- The value of one hex digit character, or `none` if it is not a hex
digit. -/
def hexVal (c : Char) : Option Nat :=
  if 48 ≤ c.toNat ∧ c.toNat ≤ 57 then some (c.toNat - 48)
  else if 97 ≤ c.toNat ∧ c.toNat ≤ 102 then some (c.toNat - 87)
  else if 65 ≤ c.toNat ∧ c.toNat ≤ 70 then some (c.toNat - 55)
  else none

/-- The `hex` crate's decode failure modes. -/
inductive HexError where
  | InvalidHexCharacter
  | OddLength
  deriving DecidableEq

/-- `hex::decode`: decodes pairs of hex digits into bytes; fails on an odd
number of digits or a non-hex character. -/
def hexDecode : List Char → Except HexError (List Nat)
  | [] => .ok []
  | [_] => .error .OddLength
  | a :: b :: rest =>
    match hexVal a, hexVal b with
    | some x, some y => (hexDecode rest).map (fun l => (16 * x + y) :: l)
    | _, _ => .error .InvalidHexCharacter

/-- The outcome of running a Rust function that may return `Ok`, return
`Err`, or panic. Panics are modelled explicitly so that the no-panic claim is
statable. -/
inductive RustOutcome (E : Type) (A : Type) where
  | ok (a : A)
  | error (e : E)
  | panicked (msg : String)
  deriving DecidableEq

/-- A serde `Serializer` (together with its associated `Ok` and `Error`
types), restricted to the operations the custom adapters in `models/mod.rs`
invoke: `serialize_none`, `serialize_str`, and `ser::Error::custom`. -/
structure Serializer (Ok : Type) (Err : Type) where
  serializeNone : Except Err Ok
  serializeStr : String → Except Err Ok
  customError : String → Err

/-- `color::serialize`: `None` serializes as the serializer's none (JSON
null); `Some(color)` serializes as the hex-encoded string. -/
def colorSerialize {Ok Err : Type} (S : Serializer Ok Err)
    (color : Option RGB8) : Except Err Ok :=
  match color with
  | none => S.serializeNone
  | some color => S.serializeStr (hexEncode color)

/-- `color::deserialize`: a JSON null yields `None`; a string is hex-decoded
(failure becomes a custom error) and then the code indexes `values[0]`,
`values[1]`, `values[2]` with no length check — fewer than 3 decoded bytes is
an out-of-bounds panic. -/
def colorDeserialize (input : Option String) : RustOutcome String (Option RGB8) :=
  match input with
  | none => .ok none
  | some hex =>
    match hexDecode hex.data with
    | .error _ => .error "hex decode failed"
    | .ok values =>
      match values with
      | v0 :: v1 :: v2 :: _ => .ok (some ⟨v0, v1, v2⟩)
      | _ => .panicked "index out of bounds"

/-- `time::serde::iso8601::option::serialize` (external collaborator): `None`
serializes as the serializer's none; `Some(datetime)` as the ISO-8601
string. -/
def iso8601OptionSerialize {Ok Err : Type} (S : Serializer Ok Err)
    (datetime : Option OffsetDateTime) : Except Err Ok :=
  match datetime with
  | none => S.serializeNone
  | some datetime => S.serializeStr datetime.iso

/-- `patchable_color::serialize`: delegates to `color::serialize` when
`Patched`, and fails with a custom serialization error when `Unmodified`. -/
def patchableColorSerialize {Ok Err : Type} (S : Serializer Ok Err)
    (color : Patchable (Option RGB8)) : Except Err Ok :=
  match color with
  | .Patched color => colorSerialize S color
  | .Unmodified =>
    .error (S.customError "unmodified patchable should not be serialized")

/-- `patchable_datetime::serialize`: delegates to the ISO-8601 option
serializer when `Patched`, and fails with a custom serialization error when
`Unmodified`. -/
def patchableDatetimeSerialize {Ok Err : Type} (S : Serializer Ok Err)
    (datetime : Patchable (Option OffsetDateTime)) : Except Err Ok :=
  match datetime with
  | .Patched datetime => iso8601OptionSerialize S datetime
  | .Unmodified =>
    .error (S.customError "unmodified patchable should not be serialized")

/-- The JSON value tree produced by serializing to a JSON serializer. -/
inductive Json where
  | null
  | str (s : String)
  | bool (b : Bool)
  | num (n : Nat)
  | arr (elems : List Json)
  | obj (fields : List (String × Json))

/-- A serialization error of the JSON serializer (`serde_json`'s custom
error). -/
inductive SerError where
  | custom (msg : String)
  deriving DecidableEq

/-- The JSON serializer, as an instance of the `Serializer` interface. -/
def jsonSerializer : Serializer Json SerError where
  serializeNone := .ok .null
  serializeStr s := .ok (.str s)
  customError msg := .custom msg

/-! ## `models/member.rs` -/

/-- `PROXY_TAG_SIZE_LIMIT`. -/
def PROXY_TAG_SIZE_LIMIT : Nat := 100

/-- `ProxyTagExceededLimitError`: the single combined-limit error of
`ProxyTag::new`. -/
inductive ProxyTagExceededLimitError where
  | mk
  deriving DecidableEq

/-- `ProxyTag`: optional leading and trailing fragments. The Rust fields are
named `prefix` and `suffix`; they are shortened to `pre` and `suf` here, and
the serde field names are kept in the JSON encoding. -/
structure ProxyTag where
  pre : Option String
  suf : Option String
  deriving DecidableEq

/-- The closure `validate` inside `ProxyTag::new`: threads the running
`length` total, adds the byte length of a present fragment, and fails once
the total exceeds `PROXY_TAG_SIZE_LIMIT`. -/
def ProxyTag.validate (length : Nat) (parameter : Option String) :
    Except ProxyTagExceededLimitError (Option String × Nat) :=
  match parameter with
  | some parameter =>
    let length := length + utf8Len parameter
    if length > PROXY_TAG_SIZE_LIMIT then .error .mk
    else .ok (some parameter, length)
  | none => .ok (none, length)

/-- `ProxyTag::new`: validates the two fragments through the shared running
total, so the pair is rejected exactly when the combined byte length of the
present fragments exceeds the limit. -/
def ProxyTag.new (pre suf : Option String) :
    Except ProxyTagExceededLimitError ProxyTag := do
  let (p, length) ← ProxyTag.validate 0 pre
  let (s, _) ← ProxyTag.validate length suf
  .ok ⟨p, s⟩

/-- `MemberPrivacyPatch`: the seven per-field privacy toggles. -/
structure MemberPrivacyPatch where
  visibility : Patchable Privacy
  name : Patchable Privacy
  description : Patchable Privacy
  birthday : Patchable Privacy
  pronouns : Patchable Privacy
  avatar : Patchable Privacy
  metadata : Patchable Privacy
  deriving DecidableEq

/-- `MemberPatch`: every optionally-changeable member field wrapped in
`Patchable`, plus the always-present `proxy_tags` replacement list. -/
structure MemberPatch where
  name : Patchable (LimitedStr 100)
  display_name : Patchable (Option (LimitedStr 100))
  color : Patchable (Option RGB8)
  birthday : Patchable (Option OffsetDateTime)
  pronouns : Patchable (Option (LimitedStr 100))
  avatar : Patchable (Option (LimitedUrl 256))
  webhook_avatar : Patchable (Option (LimitedUrl 256))
  banner : Patchable (Option (LimitedUrl 256))
  description : Patchable (Option (LimitedStr 1000))
  proxy_tags : List ProxyTag
  keep_proxy_tags : Patchable Bool
  text_to_speech : Patchable Bool
  autoproxy_enabled : Patchable (Option Bool)
  privacy : Patchable MemberPrivacyPatch

/-- `impl Default for MemberPrivacyPatch` (derived): every field
`Unmodified`. -/
def MemberPrivacyPatch.default : MemberPrivacyPatch where
  visibility := .Unmodified
  name := .Unmodified
  description := .Unmodified
  birthday := .Unmodified
  pronouns := .Unmodified
  avatar := .Unmodified
  metadata := .Unmodified

/-- `MemberPrivacyPatch::all`: every field `Patched` with the same privacy
value. -/
def MemberPrivacyPatch.all (privacy : Privacy) : MemberPrivacyPatch where
  visibility := .Patched privacy
  name := .Patched privacy
  description := .Patched privacy
  birthday := .Patched privacy
  pronouns := .Patched privacy
  avatar := .Patched privacy
  metadata := .Patched privacy

/-- `MemberPrivacyPatch::PUBLIC`. -/
def MemberPrivacyPatch.PUBLIC : MemberPrivacyPatch :=
  MemberPrivacyPatch.all .Public

/-- `MemberPrivacyPatch::PRIVATE`. -/
def MemberPrivacyPatch.PRIVATE : MemberPrivacyPatch :=
  MemberPrivacyPatch.all .Private

/-- `impl Default for MemberPatch` (derived): every patchable field
`Unmodified`, `proxy_tags` empty. -/
def MemberPatch.default : MemberPatch where
  name := .Unmodified
  display_name := .Unmodified
  color := .Unmodified
  birthday := .Unmodified
  pronouns := .Unmodified
  avatar := .Unmodified
  webhook_avatar := .Unmodified
  banner := .Unmodified
  description := .Unmodified
  proxy_tags := []
  keep_proxy_tags := .Unmodified
  text_to_speech := .Unmodified
  autoproxy_enabled := .Unmodified
  privacy := .Unmodified

/-! ### Serialization of the patch structures to JSON

serde serializes a struct field by field in declaration order; a field
annotated `skip_serializing_if = "Patchable::is_unmodified"` is omitted when
the predicate holds, and otherwise serialized with its own `Serialize`
implementation or its `with = ...` adapter. The derived `Serialize` of the
enum `Patchable<T>` (no serde attribute on it) uses serde's default external
tagging: `Patched(v)` becomes the single-key object `{"Patched": <v>}` and
`Unmodified` becomes the string `"Unmodified"`. -/

/-- Derived serialization of `Option<T>`: `None` is null, `Some(v)` is `v`'s
encoding. -/
def optJson {T : Type} (f : T → Json) : Option T → Json
  | none => .null
  | some v => f v

/-- Derived serialization of `Patchable<T>` (externally tagged enum, serde's
default for a derive with no attribute). -/
def patchableJson {T : Type} (f : T → Json) : Patchable T → Json
  | .Patched v => .obj [("Patched", f v)]
  | .Unmodified => .str "Unmodified"

/-- Derived serialization of `LimitedStr` (newtype struct: transparent). -/
def limitedStrJson {L : Nat} (s : LimitedStr L) : Json :=
  .str s.val

/-- Serialization of `LimitedUrl` (newtype struct over `Url`; the `url` crate
serializes a `Url` as its text form). -/
def limitedUrlJson {L : Nat} (u : LimitedUrl L) : Json :=
  .str u.url.text

/-- Derived serialization of `Privacy` (unit enum variants as strings). -/
def privacyJson : Privacy → Json
  | .Public => .str "Public"
  | .Private => .str "Private"

/-- Derived serialization of `ProxyTag` (plain struct, serde field names
`prefix` and `suffix`). -/
def proxyTagJson (t : ProxyTag) : Json :=
  .obj [("prefix", optJson Json.str t.pre), ("suffix", optJson Json.str t.suf)]

/-- One `#[serde(skip_serializing_if = "Patchable::is_unmodified")]` field of
a patch struct: no entry when unmodified, otherwise the entry produced by the
field's serializer (a `with = ...` adapter, or the field type's own
`Serialize`). -/
def patchEntry {T : Type} (name : String) (p : Patchable T)
    (adapter : Patchable T → Except SerError Json) :
    Except SerError (List (String × Json)) :=
  if p.is_unmodified then .ok []
  else (adapter p).map (fun j => [(name, j)])

/-- A patch field with no `with` adapter: serialized by the derived
`Serialize` of `Patchable<T>`, which cannot fail. -/
def defaultAdapter {T : Type} (f : T → Json) (p : Patchable T) :
    Except SerError Json :=
  .ok (patchableJson f p)

/-- One field of `MemberPrivacyPatch` (all of its fields use the derived
`Patchable<Privacy>` serialization, which cannot fail). -/
def privacyPatchEntry (name : String) (p : Patchable Privacy) :
    List (String × Json) :=
  if p.is_unmodified then []
  else [(name, patchableJson privacyJson p)]

/-- Derived serialization of `MemberPrivacyPatch`: its seven fields in
declaration order, each suppressed when unmodified. -/
def memberPrivacyPatchJson (p : MemberPrivacyPatch) : Json :=
  .obj
    (privacyPatchEntry "visibility" p.visibility ++
      privacyPatchEntry "name" p.name ++
      privacyPatchEntry "description" p.description ++
      privacyPatchEntry "birthday" p.birthday ++
      privacyPatchEntry "pronouns" p.pronouns ++
      privacyPatchEntry "avatar" p.avatar ++
      privacyPatchEntry "metadata" p.metadata)

/-- Derived serialization of `MemberPatch`: its fields in declaration order
with their serde names; unmodified patchable fields are suppressed, `color`
and `birthday` go through their custom adapters, `proxy_tags` is always
emitted. -/
def serializeMemberPatch (m : MemberPatch) : Except SerError Json := do
  let e1 ← patchEntry "name" m.name (defaultAdapter limitedStrJson)
  let e2 ← patchEntry "display_name" m.display_name
    (defaultAdapter (optJson limitedStrJson))
  let e3 ← patchEntry "color" m.color (patchableColorSerialize jsonSerializer)
  let e4 ← patchEntry "birthday" m.birthday
    (patchableDatetimeSerialize jsonSerializer)
  let e5 ← patchEntry "pronouns" m.pronouns
    (defaultAdapter (optJson limitedStrJson))
  let e6 ← patchEntry "avatar_url" m.avatar
    (defaultAdapter (optJson limitedUrlJson))
  let e7 ← patchEntry "webhook_avatar_url" m.webhook_avatar
    (defaultAdapter (optJson limitedUrlJson))
  let e8 ← patchEntry "banner" m.banner
    (defaultAdapter (optJson limitedUrlJson))
  let e9 ← patchEntry "description" m.description
    (defaultAdapter (optJson limitedStrJson))
  let e10 := [("proxy_tags", Json.arr (m.proxy_tags.map proxyTagJson))]
  let e11 ← patchEntry "keep_proxy" m.keep_proxy_tags
    (defaultAdapter Json.bool)
  let e12 ← patchEntry "text_to_speech" m.text_to_speech
    (defaultAdapter Json.bool)
  let e13 ← patchEntry "autoproxy_enabled" m.autoproxy_enabled
    (defaultAdapter (optJson Json.bool))
  let e14 ← patchEntry "privacy" m.privacy
    (defaultAdapter memberPrivacyPatchJson)
  .ok (.obj
    (e1 ++ e2 ++ e3 ++ e4 ++ e5 ++ e6 ++ e7 ++ e8 ++ e9 ++ e10 ++ e11 ++
      e12 ++ e13 ++ e14))

/-! ### Observers used to state the claims -/

/-- The keys of a JSON object (empty for anything else). -/
def objKeys : Json → List String
  | .obj fields => fields.map Prod.fst
  | _ => []

/-- The value of a key in a JSON object. -/
def objGet (k : String) : Json → Option Json
  | .obj fields => (fields.filter (fun f => f.fst = k)).head?.map Prod.snd
  | _ => none

/-- The keys emitted by a serialization run that succeeded (empty for a
failed run). -/
def emittedKeys (r : Except SerError Json) : List String :=
  match r with
  | .ok j => objKeys j
  | .error _ => []

/-! ### Characterizations of the per-field encodings, used by the proofs -/

/-- The encoding the derived externally-tagged `Patchable<T>` serialization
gives a `Patched` value: the single-key object `{"Patched": <v>}`. -/
def taggedJson {T : Type} (f : T → Json) (v : T) : Json :=
  .obj [("Patched", f v)]

/-- The bare encoding `color::serialize` gives a patched color value. -/
def colorJson : Option RGB8 → Json :=
  optJson (fun c => .str (hexEncode c))

/-- The bare encoding the ISO-8601 adapter gives a patched date/time value. -/
def datetimeJson : Option OffsetDateTime → Json :=
  optJson (fun d => .str d.iso)

/-- The entries a suppressible patch field contributes to the serialized
object: none when unmodified, one when patched. -/
def patchSeg {T : Type} (name : String) (f : T → Json) :
    Patchable T → List (String × Json)
  | .Patched v => [(name, f v)]
  | .Unmodified => []

/-- The field list `serializeMemberPatch` produces, field by field. -/
def memberPatchEntries (m : MemberPatch) : List (String × Json) :=
  patchSeg "name" (taggedJson limitedStrJson) m.name ++
    patchSeg "display_name" (taggedJson (optJson limitedStrJson))
      m.display_name ++
    patchSeg "color" colorJson m.color ++
    patchSeg "birthday" datetimeJson m.birthday ++
    patchSeg "pronouns" (taggedJson (optJson limitedStrJson)) m.pronouns ++
    patchSeg "avatar_url" (taggedJson (optJson limitedUrlJson)) m.avatar ++
    patchSeg "webhook_avatar_url" (taggedJson (optJson limitedUrlJson))
      m.webhook_avatar ++
    patchSeg "banner" (taggedJson (optJson limitedUrlJson)) m.banner ++
    patchSeg "description" (taggedJson (optJson limitedStrJson))
      m.description ++
    [("proxy_tags", Json.arr (m.proxy_tags.map proxyTagJson))] ++
    patchSeg "keep_proxy" (taggedJson Json.bool) m.keep_proxy_tags ++
    patchSeg "text_to_speech" (taggedJson Json.bool) m.text_to_speech ++
    patchSeg "autoproxy_enabled" (taggedJson (optJson Json.bool))
      m.autoproxy_enabled ++
    patchSeg "privacy" (taggedJson memberPrivacyPatchJson) m.privacy

/-- A `MemberPatch` that only clears the display name: the default patch with
`display_name` set to `Patched(None)`. -/
def displayNameClearPatch : MemberPatch :=
  { MemberPatch.default with display_name := .Patched none }

/-- A `MemberPatch` that only sets the display name to `"Lily"`. -/
def displayNameSetPatch : MemberPatch :=
  { MemberPatch.default with display_name := .Patched (some ⟨"Lily"⟩) }

/-! ## Helper lemmas -/

theorem charUtf8Size_eq_one_of_lower (c : Char)
    (h : isAsciiLowercase c = true) : charUtf8Size c = 1 := by
  simp only [isAsciiLowercase, Bool.and_eq_true, decide_eq_true_eq] at h
  have hlt : c.toNat < 0x80 := by omega
  simp [charUtf8Size, hlt]

theorem utf8Len_eq_card_of_lower (l : List Char)
    (h : l.all isAsciiLowercase = true) :
    (l.map charUtf8Size).sum = l.length := by
  induction l with
  | nil => rfl
  | cons c rest ih =>
    simp only [List.all_cons, Bool.and_eq_true] at h
    simp [charUtf8Size_eq_one_of_lower c h.1, ih h.2, Nat.add_comm]

theorem patchEntry_default {T : Type} (name : String) (g : T → Json)
    (p : Patchable T) :
    patchEntry name p (defaultAdapter g) =
      .ok (patchSeg name (taggedJson g) p) := by
  cases p <;> rfl

theorem patchEntry_color (name : String) (p : Patchable (Option RGB8)) :
    patchEntry name p (patchableColorSerialize jsonSerializer) =
      .ok (patchSeg name colorJson p) := by
  cases p with
  | Patched v => cases v <;> rfl
  | Unmodified => rfl

theorem patchEntry_datetime (name : String)
    (p : Patchable (Option OffsetDateTime)) :
    patchEntry name p (patchableDatetimeSerialize jsonSerializer) =
      .ok (patchSeg name datetimeJson p) := by
  cases p with
  | Patched v => cases v <;> rfl
  | Unmodified => rfl

theorem serializeMemberPatch_eq (m : MemberPatch) :
    serializeMemberPatch m = .ok (.obj (memberPatchEntries m)) := by
  simp only [serializeMemberPatch, patchEntry_default, patchEntry_color,
    patchEntry_datetime, bind, Except.bind, memberPatchEntries]

theorem mem_keys_patchSeg {T : Type} (k name : String) (f : T → Json)
    (p : Patchable T) :
    (k ∈ (patchSeg name f p).map Prod.fst) ↔
      (k = name ∧ p.is_unmodified = false) := by
  cases p <;> simp [patchSeg, Patchable.is_unmodified]

theorem mem_keys_privacyPatchEntry (k name : String) (p : Patchable Privacy) :
    (k ∈ (privacyPatchEntry name p).map Prod.fst) ↔
      (k = name ∧ p.is_unmodified = false) := by
  cases p <;> simp [privacyPatchEntry, Patchable.is_unmodified]

/-! ## The claims -/

/-- C3: for every string `s` and bound `L`, if `s.len() <= L` then
`LimitedStr::<L>::try_from(s)` succeeds and the result dereferences to
exactly `s`; if `s.len() > L` it fails with the length-violation error
carrying the offending input `s` and the limit `L`. -/
theorem C3_limitedStr_tryFrom_bounds (L : Nat) (s : String) :
    (utf8Len s ≤ L →
      ∃ t : LimitedStr L, LimitedStr.tryFrom L s = .ok t ∧ t.deref = s) ∧
    (utf8Len s > L → LimitedStr.tryFrom L s = .error ⟨s, L⟩) := by
  constructor
  · intro h
    exact ⟨⟨s⟩, by simp [LimitedStr.tryFrom, Nat.not_lt.mpr h], rfl⟩
  · intro h
    simp [LimitedStr.tryFrom, h]

theorem C3_limitedStr_tryFrom_bounds_witness :
    (∃ t : LimitedStr 5, LimitedStr.tryFrom 5 "hello" = .ok t ∧
      t.deref = "hello") ∧
    LimitedStr.tryFrom 5 "hello!" = .error ⟨"hello!", 5⟩ :=
  ⟨(C3_limitedStr_tryFrom_bounds 5 "hello").1 (by decide),
    (C3_limitedStr_tryFrom_bounds 5 "hello!").2 (by decide)⟩

/-- C4: `ProxyTag::new` fails with the single combined-limit error exactly
when the byte lengths of the present fragments sum to more than 100, and on
success the constructed `ProxyTag` holds exactly the values passed in. -/
theorem C4_proxyTag_new_combined_limit (pre suf : Option String) :
    ProxyTag.new pre suf =
      if utf8Len (pre.getD "") + utf8Len (suf.getD "") > PROXY_TAG_SIZE_LIMIT
      then .error .mk
      else .ok ⟨pre, suf⟩ := by
  have hempty : utf8Len "" = 0 := rfl
  cases pre with
  | none =>
    cases suf with
    | none => rfl
    | some b =>
      by_cases h : PROXY_TAG_SIZE_LIMIT < utf8Len b
      all_goals
        simp [ProxyTag.new, ProxyTag.validate, Option.getD, bind, Except.bind,
          Nat.zero_add, hempty, h]
  | some a =>
    cases suf with
    | none =>
      by_cases h : PROXY_TAG_SIZE_LIMIT < utf8Len a
      all_goals
        simp [ProxyTag.new, ProxyTag.validate, Option.getD, bind, Except.bind,
          Nat.zero_add, hempty, h]
    | some b =>
      by_cases h1 : PROXY_TAG_SIZE_LIMIT < utf8Len a
      · have h2 : PROXY_TAG_SIZE_LIMIT < utf8Len a + utf8Len b := by omega
        simp [ProxyTag.new, ProxyTag.validate, Option.getD, bind, Except.bind,
          Nat.zero_add, h1, h2]
      · by_cases h2 : PROXY_TAG_SIZE_LIMIT < utf8Len a + utf8Len b
        all_goals
          simp [ProxyTag.new, ProxyTag.validate, Option.getD, bind,
            Except.bind, Nat.zero_add, h1, h2]

/-- C5: every string of exactly 5 lowercase ASCII letters is accepted by
`ShortId::try_from`, and the canonical text form of the result equals the
input exactly. -/
theorem C5_shortId_roundtrip (s : String) (hlen : s.data.length = 5)
    (hlow : s.data.all isAsciiLowercase = true) :
    ∃ t : ShortId, ShortId.tryFrom s = .ok t ∧ t.toString = s := by
  refine ⟨⟨s⟩, ?_, rfl⟩
  have h5 : utf8Len s = 5 := by
    simpa [utf8Len, hlen] using utf8Len_eq_card_of_lower s.data hlow
  simp [ShortId.tryFrom, h5, hlow]

theorem C5_shortId_roundtrip_witness :
    ∃ t : ShortId, ShortId.tryFrom "ptckn" = .ok t ∧ t.toString = "ptckn" :=
  C5_shortId_roundtrip "ptckn" (by decide) (by decide)

/-- C6: a string whose byte length (Rust `str::len`) is not 5 is rejected
with `IncorrectLength` — even when it also contains characters outside
`a`-`z`, because the length check runs first — and a string of length 5
containing any character outside `a`-`z` is rejected with
`InvalidCharacters`. -/
theorem C6_shortId_error_order (s : String) :
    (utf8Len s ≠ 5 → ShortId.tryFrom s = .error .IncorrectLength) ∧
    (utf8Len s = 5 → (∃ c ∈ s.data, isAsciiLowercase c = false) →
      ShortId.tryFrom s = .error .InvalidCharacters) := by
  constructor
  · intro h
    simp [ShortId.tryFrom, h]
  · intro h5 hc
    have hall : ¬ s.data.all isAsciiLowercase = true := by
      simp only [List.all_eq_true]
      rcases hc with ⟨c, hmem, hc⟩
      intro hforall
      exact absurd (hforall c hmem) (by simp [hc])
    simp [ShortId.tryFrom, h5, hall]

theorem C6_shortId_error_order_witness :
    ShortId.tryFrom "abc!!!" = .error .IncorrectLength ∧
    ShortId.tryFrom "abc!!" = .error .InvalidCharacters :=
  ⟨(C6_shortId_error_order "abc!!!").1 (by decide),
    (C6_shortId_error_order "abc!!").2 (by decide)
      ⟨'!', by decide, by decide⟩⟩

/-- C7: `LimitedUrl::<L>::try_from` checks the byte length first — an
over-long input fails with the length-violation error no matter what the URL
parser would say — and only then runs the URL parse, whose failure surfaces
as the distinct `ParseError` variant of the same error type. -/
theorem C7_limitedUrl_error_order
    (parse : String → Except UrlParseError Url) (L : Nat) (s : String) :
    (utf8Len s > L →
      LimitedUrl.tryFrom parse L s = .error (.ExceededLimitError s L)) ∧
    (utf8Len s ≤ L → ∀ e : UrlParseError, parse s = .error e →
      LimitedUrl.tryFrom parse L s = .error (.ParseError e)) ∧
    (∀ (i : String) (l : Nat) (e : UrlParseError),
      LimitedUrlError.ExceededLimitError i l ≠ LimitedUrlError.ParseError e) := by
  refine ⟨?_, ?_, ?_⟩
  · intro h
    simp [LimitedUrl.tryFrom, h]
  · intro h e he
    simp [LimitedUrl.tryFrom, Nat.not_lt.mpr h, he]
  · intro i l e h
    exact LimitedUrlError.noConfusion h

theorem C7_limitedUrl_error_order_witness :
    LimitedUrl.tryFrom (fun _ => .error ⟨"relative URL without a base"⟩) 3
        "abcd" = .error (.ExceededLimitError "abcd" 3) ∧
    LimitedUrl.tryFrom (fun _ => .error ⟨"relative URL without a base"⟩) 3
        "ab" = .error (.ParseError ⟨"relative URL without a base"⟩) :=
  ⟨(C7_limitedUrl_error_order (fun _ => .error ⟨"relative URL without a base"⟩)
      3 "abcd").1 (by decide),
    (C7_limitedUrl_error_order (fun _ => .error ⟨"relative URL without a base"⟩)
      3 "ab").2.1 (by decide) _ rfl⟩

/-- C8: invoking the color adapter or the date/time adapter directly on an
`Unmodified` value fails with the contract-violation serialization error, for
every serializer. -/
theorem C8_adapter_unmodified_fails :
    ∀ (Ok Err : Type) (S : Serializer Ok Err),
      patchableColorSerialize S .Unmodified =
        .error
          (S.customError "unmodified patchable should not be serialized") ∧
      patchableDatetimeSerialize S .Unmodified =
        .error
          (S.customError "unmodified patchable should not be serialized") :=
  fun _ _ _ => ⟨rfl, rfl⟩

/-- C10 (refuting the no-panic claim): deserializing a color from the
two-character hex string `"ff"` hex-decodes to the single byte `[255]`, and
the code then panics indexing `values[1]` instead of returning a typed
failure. -/
theorem C10_color_deserialize_panics :
    hexDecode "ff".data = .ok [255] ∧
    colorDeserialize (some "ff") = .panicked "index out of bounds" :=
  ⟨rfl, rfl⟩

/-- C1: for every `MemberPatch` and every `MemberPrivacyPatch`, serialization
emits a `Patchable` field exactly when it is `Patched`; an `Unmodified` field
contributes no key at all to the serialized object. -/
theorem C1_patch_field_emitted_iff_patched :
    (∀ m : MemberPatch,
      ("name" ∈ emittedKeys (serializeMemberPatch m) ↔
        m.name.is_unmodified = false) ∧
      ("display_name" ∈ emittedKeys (serializeMemberPatch m) ↔
        m.display_name.is_unmodified = false) ∧
      ("color" ∈ emittedKeys (serializeMemberPatch m) ↔
        m.color.is_unmodified = false) ∧
      ("birthday" ∈ emittedKeys (serializeMemberPatch m) ↔
        m.birthday.is_unmodified = false) ∧
      ("pronouns" ∈ emittedKeys (serializeMemberPatch m) ↔
        m.pronouns.is_unmodified = false) ∧
      ("avatar_url" ∈ emittedKeys (serializeMemberPatch m) ↔
        m.avatar.is_unmodified = false) ∧
      ("webhook_avatar_url" ∈ emittedKeys (serializeMemberPatch m) ↔
        m.webhook_avatar.is_unmodified = false) ∧
      ("banner" ∈ emittedKeys (serializeMemberPatch m) ↔
        m.banner.is_unmodified = false) ∧
      ("description" ∈ emittedKeys (serializeMemberPatch m) ↔
        m.description.is_unmodified = false) ∧
      ("keep_proxy" ∈ emittedKeys (serializeMemberPatch m) ↔
        m.keep_proxy_tags.is_unmodified = false) ∧
      ("text_to_speech" ∈ emittedKeys (serializeMemberPatch m) ↔
        m.text_to_speech.is_unmodified = false) ∧
      ("autoproxy_enabled" ∈ emittedKeys (serializeMemberPatch m) ↔
        m.autoproxy_enabled.is_unmodified = false) ∧
      ("privacy" ∈ emittedKeys (serializeMemberPatch m) ↔
        m.privacy.is_unmodified = false)) ∧
    (∀ p : MemberPrivacyPatch,
      ("visibility" ∈ objKeys (memberPrivacyPatchJson p) ↔
        p.visibility.is_unmodified = false) ∧
      ("name" ∈ objKeys (memberPrivacyPatchJson p) ↔
        p.name.is_unmodified = false) ∧
      ("description" ∈ objKeys (memberPrivacyPatchJson p) ↔
        p.description.is_unmodified = false) ∧
      ("birthday" ∈ objKeys (memberPrivacyPatchJson p) ↔
        p.birthday.is_unmodified = false) ∧
      ("pronouns" ∈ objKeys (memberPrivacyPatchJson p) ↔
        p.pronouns.is_unmodified = false) ∧
      ("avatar" ∈ objKeys (memberPrivacyPatchJson p) ↔
        p.avatar.is_unmodified = false) ∧
      ("metadata" ∈ objKeys (memberPrivacyPatchJson p) ↔
        p.metadata.is_unmodified = false)) := by
  constructor
  · intro m
    simp only [serializeMemberPatch_eq, emittedKeys, objKeys,
      memberPatchEntries, List.map_append, List.mem_append, List.map_cons,
      List.map_nil, mem_keys_patchSeg]
    simp
  · intro p
    simp only [memberPrivacyPatchJson, objKeys, List.map_append,
      List.mem_append, mem_keys_privacyPatchEntry]
    simp

/-- C2 (refuting the bare-encoding claim for plain optional patch fields):
the patch whose only change is `display_name = Patched(None)` serializes
that field as the externally tagged object `{"Patched": null}`, not as an
explicit null, and `Patched(Some("Lily"))` serializes as
`{"Patched": "Lily"}`, not as the bare string — the derived `Patchable`
serialization tags the value. -/
theorem C2_patched_option_tagged_not_bare :
    serializeMemberPatch displayNameClearPatch =
      .ok (.obj [("display_name", .obj [("Patched", .null)]),
        ("proxy_tags", .arr [])]) ∧
    Json.obj [("Patched", Json.null)] ≠ Json.null ∧
    serializeMemberPatch displayNameSetPatch =
      .ok (.obj [("display_name", .obj [("Patched", .str "Lily")]),
        ("proxy_tags", .arr [])]) ∧
    Json.obj [("Patched", Json.str "Lily")] ≠ Json.str "Lily" :=
  ⟨rfl, fun h => Json.noConfusion h, rfl, fun h => Json.noConfusion h⟩

/-- C9 (the presets are as claimed; the serialized values are not): both
presets set all 7 fields to `Patched` with the same privacy value, and
serializing the all-private preset emits all 7 keys — but each value is the
externally tagged object `{"Patched": "Private"}` rather than the private
value's own encoding. -/
theorem C9_privacy_presets_eval :
    MemberPrivacyPatch.PRIVATE =
      ⟨.Patched .Private, .Patched .Private, .Patched .Private,
        .Patched .Private, .Patched .Private, .Patched .Private,
        .Patched .Private⟩ ∧
    MemberPrivacyPatch.PUBLIC =
      ⟨.Patched .Public, .Patched .Public, .Patched .Public,
        .Patched .Public, .Patched .Public, .Patched .Public,
        .Patched .Public⟩ ∧
    memberPrivacyPatchJson MemberPrivacyPatch.PRIVATE =
      .obj [("visibility", .obj [("Patched", .str "Private")]),
        ("name", .obj [("Patched", .str "Private")]),
        ("description", .obj [("Patched", .str "Private")]),
        ("birthday", .obj [("Patched", .str "Private")]),
        ("pronouns", .obj [("Patched", .str "Private")]),
        ("avatar", .obj [("Patched", .str "Private")]),
        ("metadata", .obj [("Patched", .str "Private")])] ∧
    Json.obj [("Patched", Json.str "Private")] ≠ Json.str "Private" :=
  ⟨rfl, rfl, rfl, fun h => Json.noConfusion h⟩
